import Mathlib

/-!
Verification of the Exam Session & Multi-Stage Assessment Engine of
`backend/server.py` (driver-testing backend).

The Python source is shallowly embedded: MongoDB collections become Lean
lists of structure values (`find_one` is `List.find?`, `find(...).to_list(n)`
is `List.filter` followed by `List.take`, `update_one` by id is a `List.map`
that rewrites the matching document, `insert_one` appends), `datetime`
values become `Int` minutes, Python `int`/`float` arithmetic becomes exact
`Int`/`ℚ` arithmetic, and every HTTPException becomes an explicit error
value.  `random.shuffle` is modelled by an explicit `shuffle` parameter;
theorems that depend on it assume only that it permutes its input.
-/

namespace DriverTesting

/-- Value model of one entry of a multiple-choice question's `options` list
(`{"text": ..., "is_correct": ...}`). -/
structure QOption where
  text : String
  is_correct : Bool
deriving DecidableEq, Repr

/-- Value model of a question document of the `questions` collection, keeping
the fields the exam-session core reads.  `correct_answer` is the true/false
key (`none` models an absent field, as for multiple-choice questions). -/
structure Question where
  id : String
  category_id : String
  question_type : String
  question_text : String
  options : List QOption
  correct_answer : Option Bool
  difficulty : String
  status : String
deriving DecidableEq, Repr

/-- Value model of a `test_configurations` document (Pydantic
`TestConfiguration`, server.py lines 925-933).  The difficulty distribution
is a Python dict, embedded as an association list whose keys are distinct. -/
structure TestConfiguration where
  id : String
  category_id : String
  total_questions : Nat
  pass_mark_percentage : Int
  time_limit_minutes : Int
  is_active : Bool
  difficulty_distribution : List (String × Nat)
deriving DecidableEq, Repr

/-- Python's `round` (banker's rounding, round half to even) on an exact
rational. -/
def pythonRound (q : ℚ) : ℤ :=
  let f := ⌊q⌋
  if q - f < 1/2 then f
  else if 1/2 < q - f then f + 1
  else if f % 2 = 0 then f else f + 1

/-- Python's `round(x, 2)`. -/
def round2 (q : ℚ) : ℚ := (pythonRound (q * 100) : ℚ) / 100

/-! ## Question Selector (`get_randomized_questions`, server.py 1226-1264) -/

/-- Embedding of `int((percentage / 100) * total_questions)` (server.py 1235):
Python `int` truncates toward zero, so on non-negative values this is the
floor, i.e. exact natural division. -/
def questionsNeeded (percentage total_questions : Nat) : Nat :=
  percentage * total_questions / 100

/-- Embedding of the `db.questions.find` filter of server.py 1237-1240:
approved questions of the configured category with the given difficulty. -/
def bucketFilter (db : List Question) (category_id difficulty : String) : List Question :=
  db.filter fun q =>
    q.category_id == category_id && q.difficulty == difficulty && q.status == "approved"

/-- Embedding of one iteration of the difficulty-distribution loop of
`get_randomized_questions` (server.py 1234-1246): fetch at most
`questions_needed * 2` matching questions, shuffle, take the first
`questions_needed`; contribute nothing when `questions_needed = 0`. -/
def bucketQuestions (shuffle : List Question → List Question) (db : List Question)
    (category_id : String) (total_questions : Nat) (difficulty : String)
    (percentage : Nat) : List Question :=
  let needed := questionsNeeded percentage total_questions
  if 0 < needed then
    (shuffle ((bucketFilter db category_id difficulty).take (needed * 2))).take needed
  else []

/-- Embedding of the backfill filter of server.py 1253-1257: approved
questions of the category whose id was not already selected. -/
def backfillPool (db : List Question) (category_id : String)
    (question_ids : List String) : List Question :=
  db.filter fun q =>
    q.category_id == category_id && q.status == "approved" && !(question_ids.contains q.id)

/-- Embedding of `get_randomized_questions` (server.py 1226-1264).  The
per-difficulty loop extends an accumulator, so it is the concatenation of the
per-bucket contributions; if the sum is short of `total_questions` the
backfill adds up to the missing amount; the result is shuffled once more. -/
def get_randomized_questions (shuffle : List Question → List Question)
    (db : List Question) (category_id : String) (total_questions : Nat)
    (difficulty_distribution : List (String × Nat)) : List Question :=
  let questions := (difficulty_distribution.map fun dp =>
    bucketQuestions shuffle db category_id total_questions dp.1 dp.2).flatten
  let questions :=
    if questions.length < total_questions then
      let remaining_needed := total_questions - questions.length
      let question_ids := questions.map (·.id)
      questions ++ (backfillPool db category_id question_ids).take remaining_needed
    else questions
  shuffle questions

/-! ## Session store and error taxonomy -/

/-- Value model of an answer stored in the session's `answers` map
(server.py 1387-1391). -/
structure StoredAnswer where
  selected_option : Option String
  boolean_answer : Option Bool
  answered_at : Int
deriving DecidableEq, Repr

/-- Value model of the request body of the answer/bookmark endpoint
(Pydantic `TestAnswer`, server.py 948-952); also the element type of a
submission's answer list. -/
structure TestAnswer where
  question_id : String
  selected_option : Option String
  boolean_answer : Option Bool
  is_bookmarked : Bool
deriving DecidableEq, Repr

/-- Value model of one entry of a session's `time_extensions` log: the log
mixes extension records (server.py 1561-1567) and reset records
(server.py 1614-1619), distinguished by their field shape. -/
inductive TimeLogRecord
  | extensionRecord (extended_by extended_by_name : String)
      (additional_minutes : Int) (reason : Option String) (extended_at : Int)
  | resetRecord (reset_by reset_by_name : String)
      (reset_to_minutes : Int) (reset_at : Int)
deriving DecidableEq, Repr

/-- Value model of a `test_sessions` document (server.py 1197-1216).  The
`answers` map is an association list keyed by question id. -/
structure TestSession where
  id : String
  test_config_id : String
  candidate_id : String
  questions : List String
  question_details : List Question
  start_time : Int
  end_time : Int
  time_limit_minutes : Int
  time_extensions : List TimeLogRecord
  status : String
  answers : List (String × StoredAnswer)
  bookmarked_questions : List String
  updated_at : Int
deriving DecidableEq, Repr

/-- Error taxonomy of the embedded endpoints.  Each constructor is the kind
of a concrete `HTTPException` of server.py; `insufficientQuestions` carries
the counts interpolated into the 400 detail string of server.py 1193, and
`stageMismatch` the stages interpolated at server.py 2037. -/
inductive ApiError
  | notFound (detail : String)
  | sessionNotActive (detail : String)
  | sessionExpired (detail : String)
  | insufficientQuestions (required found : Nat)
  | invalidStage (detail : String)
  | stageMismatch (requested current : String)
  | internalError (detail : String)
deriving DecidableEq, Repr

/-! ## start_test_session (server.py 1143-1224) -/

/-- Response shape of `start_test_session`: on the idempotent path the
stored active session document is returned verbatim (its
`question_details` snapshot included, server.py 1186); on the creation path
the `question_details` field is deleted before returning
(server.py 1221-1223), recorded here by emptying that field under the
`created` tag. -/
inductive StartResponse
  | existing (session : TestSession)
  | created (session : TestSession)
deriving DecidableEq, Repr

/-- Embedding of `start_test_session` (server.py 1143-1224), beginning at
the active-session check (1179): the authorization and candidate lookup
above it concern the excluded user-management layer.  Returns the updated
session store together with the response.  On the insufficient-questions
error (1190-1194) and every other error the store is returned unchanged:
the code raises before any insert. -/
def start_test_session (shuffle : List Question → List Question)
    (db : List Question) (test_config : TestConfiguration)
    (sessions : List TestSession) (candidate_id new_id : String) (now : Int) :
    List TestSession × Except ApiError StartResponse :=
  match sessions.find? (fun s =>
      s.candidate_id == candidate_id && s.test_config_id == test_config.id &&
      s.status == "active") with
  | some active_session => (sessions, .ok (.existing active_session))
  | none =>
    let questions := get_randomized_questions shuffle db test_config.category_id
      test_config.total_questions test_config.difficulty_distribution
    if questions.length < test_config.total_questions then
      (sessions, .error (.insufficientQuestions test_config.total_questions questions.length))
    else
      let selected := questions.take test_config.total_questions
      let session_doc : TestSession := {
        id := new_id
        test_config_id := test_config.id
        candidate_id := candidate_id
        questions := selected.map (·.id)
        question_details := selected
        start_time := now
        end_time := now + test_config.time_limit_minutes
        time_limit_minutes := test_config.time_limit_minutes
        time_extensions := []
        status := "active"
        answers := []
        bookmarked_questions := []
        updated_at := now }
      (sessions ++ [session_doc], .ok (.created { session_doc with question_details := [] }))

/-! ## get_test_session (server.py 1266-1293) -/

/-- Embedding of `get_test_session` starting at the session lookup (1268);
the candidate-ownership check above it belongs to the excluded
authorization layer.  The response is the full session document
(`serialize_doc` only drops the Mongo `_id`): the `question_details`
snapshot is returned as stored.  An active session past its `end_time` is
lazily marked expired (1285-1291) both in the store and in the response;
the returned session is also what the store then holds. -/
def get_test_session (sessions : List TestSession) (session_id : String)
    (now : Int) : Except ApiError TestSession :=
  match sessions.find? (fun s => s.id == session_id) with
  | none => .error (.notFound "Test session not found")
  | some session =>
    if session.status = "active" ∧ session.end_time < now then
      .ok { session with status := "expired", updated_at := now }
    else
      .ok session

/-! ## get_question_by_index (server.py 1295-1351) -/

/-- Response shape of `get_question_by_index` (server.py 1333-1351): the
snapshot question with each option reduced to its text (1338), the
`correct_answer` key removed (1342-1343) — so neither `is_correct` flags
nor the true/false key appear — plus the candidate's current answer,
bookmark state and 1-based position metadata (1346-1349). -/
structure QuestionView where
  id : String
  category_id : String
  question_type : String
  question_text : String
  option_texts : List String
  difficulty : String
  status : String
  current_answer : Option StoredAnswer
  is_bookmarked : Bool
  question_number : Nat
  total_questions : Nat
deriving DecidableEq, Repr

/-- Embedding of `get_question_by_index` (server.py 1295-1351) from the
session lookup on; the index is an `Int` because the route accepts any
integer and rejects negatives explicitly (1327). -/
def get_question_by_index (sessions : List TestSession) (session_id : String)
    (question_index : Int) (now : Int) : Except ApiError QuestionView :=
  match sessions.find? (fun s => s.id == session_id) with
  | none => .error (.notFound "Test session not found")
  | some session =>
    if session.status ≠ "active" then
      .error (.sessionNotActive "Test session is not active")
    else if session.end_time < now then
      .error (.sessionExpired "Test session has expired")
    else if question_index < 0 ∨ (session.question_details.length : Int) ≤ question_index then
      .error (.notFound "Question not found")
    else
      match session.question_details.get? question_index.toNat with
      | none => .error (.notFound "Question not found")
      | some question =>
        .ok {
          id := question.id
          category_id := question.category_id
          question_type := question.question_type
          question_text := question.question_text
          option_texts := question.options.map (·.text)
          difficulty := question.difficulty
          status := question.status
          current_answer := session.answers.lookup question.id
          is_bookmarked := session.bookmarked_questions.contains question.id
          question_number := question_index.toNat + 1
          total_questions := session.question_details.length }

/-! ## save_test_answer (server.py 1353-1407)

The endpoint assembles a MongoDB update document `update_data` mixing the
plain field paths `answers.{question_id}` and `updated_at` with the update
operators `$addToSet` / `$pull`, and — since one of the two operators is
always present — always passes the re-ordered merged dictionary
(plain fields first, then operator keys) to `update_one`
(server.py 1401-1405).  PyMongo validates every update document and raises
`ValueError: update only works with $ operators` whenever its first key
does not start with a dollar sign (and the MongoDB server likewise rejects
update documents mixing operator and non-operator top-level keys), so the
call never reaches the store and the request fails. -/

/-- One key/value pair of the assembled `update_data` dict.  The
constructor records which concrete key the entry carries: the plain field
path `answers.{question_id}` with the stored answer (server.py 1387-1391),
the operator keys `$addToSet` / `$pull` with their
`{"bookmarked_questions": question_id}` argument (1394-1397), or the plain
field `updated_at` (1399). -/
inductive UpdEntry
  | answersField (question_id : String) (a : StoredAnswer)
  | addToSetOp (bookmarked_question : String)
  | pullOp (bookmarked_question : String)
  | updatedAtField (t : Int)
deriving DecidableEq, Repr

/-- Key classification used at server.py 1403-1404: does the entry's key
start with a dollar sign (`k.startswith("$")`)?  The keys are the four
concrete strings recorded by the constructors, so exactly the two operator
keys qualify. -/
def UpdEntry.isDollarKey : UpdEntry → Bool
  | .addToSetOp _ => true
  | .pullOp _ => true
  | _ => false

/-- Key test `"$addToSet" not in update_data` of server.py 1403. -/
def UpdEntry.isAddToSetKey : UpdEntry → Bool
  | .addToSetOp _ => true
  | _ => false

/-- Key test `"$pull" not in update_data` of server.py 1403. -/
def UpdEntry.isPullKey : UpdEntry → Bool
  | .pullOp _ => true
  | _ => false

/-- Shape of the document finally passed to `update_one`
(server.py 1401-1405): either the whole `update_data` wrapped under a
single `$set` key, or the merged re-ordering putting all non-dollar keys
before all dollar keys. -/
inductive UpdateDoc
  | setWrapped (fields : List UpdEntry)
  | merged (fields : List UpdEntry)
deriving DecidableEq, Repr

/-- Embedding of the `update_data` assembly of server.py 1385-1399, in
insertion order: the answer upsert entry (only when an answer value was
submitted), then exactly one of `$addToSet` / `$pull` for the bookmark
flag, then `updated_at`. -/
def save_answer_update_data (answer_data : TestAnswer) (now : Int) :
    List UpdEntry :=
  let update_data : List UpdEntry :=
    if answer_data.selected_option.isSome || answer_data.boolean_answer.isSome then
      [.answersField answer_data.question_id
        { selected_option := answer_data.selected_option,
          boolean_answer := answer_data.boolean_answer,
          answered_at := now }]
    else []
  let update_data := update_data ++
    (if answer_data.is_bookmarked then [.addToSetOp answer_data.question_id]
     else [.pullOp answer_data.question_id])
  update_data ++ [.updatedAtField now]

/-- Embedding of the conditional at server.py 1401-1405 choosing the final
update document. -/
def save_answer_update_doc (update_data : List UpdEntry) : UpdateDoc :=
  if update_data.all (fun e => ! e.isAddToSetKey) &&
      update_data.all (fun e => ! e.isPullKey) then
    .setWrapped update_data
  else
    .merged ((update_data.filter fun e => ! e.isDollarKey) ++
      (update_data.filter fun e => e.isDollarKey))

/-- PyMongo's update-document validation (`validate_ok_for_update`): the
document must be non-empty and its first key must start with a dollar
sign.  A `$set`-wrapped document qualifies; a merged document qualifies
exactly when its first entry carries an operator key. -/
def pymongo_update_ok : UpdateDoc → Bool
  | .setWrapped _ => true
  | .merged fields =>
    match fields with
    | [] => false
    | e :: _ => e.isDollarKey

/-- Outcome of a save-answer request: an HTTP-level error, a driver-level
failure (the update document was rejected before reaching the store), or
success with the updated session. -/
inductive SaveAnswerOutcome
  | ok (session : TestSession)
  | apiError (e : ApiError)
  | driverError (detail : String)
deriving DecidableEq, Repr

/-- Intended effect of the update document's operators on the session
document: upsert the answer (when one was submitted), add or remove the
bookmark-set membership, refresh `updated_at`.  Only reachable if the
assembled update document passes driver validation. -/
def apply_save_answer_update (session : TestSession) (answer_data : TestAnswer)
    (now : Int) : TestSession :=
  let answers :=
    if answer_data.selected_option.isSome || answer_data.boolean_answer.isSome then
      (session.answers.filter fun kv => !(kv.1 == answer_data.question_id)) ++
        [(answer_data.question_id,
          { selected_option := answer_data.selected_option,
            boolean_answer := answer_data.boolean_answer,
            answered_at := now })]
    else session.answers
  let bookmarked :=
    if answer_data.is_bookmarked then
      if session.bookmarked_questions.contains answer_data.question_id then
        session.bookmarked_questions
      else session.bookmarked_questions ++ [answer_data.question_id]
    else session.bookmarked_questions.filter fun q => !(q == answer_data.question_id)
  { session with answers := answers, bookmarked_questions := bookmarked, updated_at := now }

/-- Embedding of `save_test_answer` (server.py 1353-1407) from the session
lookup on. -/
def save_test_answer (sessions : List TestSession) (session_id : String)
    (answer_data : TestAnswer) (now : Int) : SaveAnswerOutcome :=
  match sessions.find? (fun s => s.id == session_id) with
  | none => .apiError (.notFound "Test session not found")
  | some session =>
    if session.status ≠ "active" then
      .apiError (.sessionNotActive "Cannot save answers to inactive test session")
    else if session.end_time < now then
      .apiError (.sessionExpired "Test session has expired")
    else
      let update_doc := save_answer_update_doc (save_answer_update_data answer_data now)
      if pymongo_update_ok update_doc then
        .ok (apply_save_answer_update session answer_data now)
      else
        .driverError "update only works with dollar operators"

/-! ## Scorer (`calculate_test_score`, server.py 1474-1535) -/

/-- Per-question entry of the scoring breakdown (server.py 1489-1497).  The
Python dict's `user_answer` / `correct_answer` slots hold a letter string
for multiple choice and a boolean for true/false; they are embedded as two
typed fields each, `none` meaning the slot was left at `None`. -/
structure QuestionResult where
  question_id : String
  question_type : String
  user_answer_option : Option String
  user_answer_bool : Option Bool
  correct_answer_option : Option String
  correct_answer_bool : Option Bool
  is_correct : Bool
  answered : Bool
deriving DecidableEq, Repr

/-- Embedding of the correct-option search of server.py 1505-1509: the
first option flagged `is_correct`, converted to a letter by position
(`chr(65 + i)`). -/
def findCorrectOption (options : List QOption) : Option String :=
  (options.findIdx? (fun o => o.is_correct)).map fun i => (Char.ofNat (65 + i)).toString

/-- Embedding of the submitted-answers dict build of server.py 1481-1483:
keyed by question id, a later entry for the same id overwrites an earlier
one. -/
def answersDict (answers : List TestAnswer) (question_id : String) : Option TestAnswer :=
  answers.reverse.find? fun a => a.question_id == question_id

/-- Embedding of one iteration of the scoring loop (server.py 1485-1526)
for a single snapshot question. -/
def scoreQuestion (lookup : String → Option TestAnswer) (question : Question) :
    QuestionResult :=
  let base : QuestionResult := {
    question_id := question.id
    question_type := question.question_type
    user_answer_option := none
    user_answer_bool := none
    correct_answer_option := none
    correct_answer_bool := none
    is_correct := false
    answered := false }
  match lookup question.id with
  | none => base
  | some user_answer =>
    let base := { base with answered := true }
    if question.question_type == "multiple_choice" && !question.options.isEmpty then
      let correct_option := findCorrectOption question.options
      { base with
          correct_answer_option := correct_option
          user_answer_option := user_answer.selected_option
          is_correct := user_answer.selected_option == correct_option }
    else if question.question_type == "true_false" then
      { base with
          correct_answer_bool := question.correct_answer
          user_answer_bool := user_answer.boolean_answer
          is_correct := user_answer.boolean_answer == question.correct_answer }
    else
      base

/-- Aggregate result of `calculate_test_score` (server.py 1530-1535). -/
structure ScoreOutcome where
  correct_answers : Nat
  answered_questions : Nat
  score_percentage : ℚ
  question_results : List QuestionResult
deriving DecidableEq, Repr

/-- Core of `calculate_test_score` (server.py 1474-1535) over the frozen
question snapshot: the loop's counters equal counting the flags over the
per-question results it appends. -/
def calculate_test_score_core (question_details : List Question)
    (answers : List TestAnswer) : ScoreOutcome :=
  let question_results := question_details.map (scoreQuestion (answersDict answers))
  let correct_answers := question_results.countP (·.is_correct)
  let answered_questions := question_results.countP (·.answered)
  let score_percentage : ℚ :=
    if 0 < question_details.length then
      (correct_answers : ℚ) / (question_details.length : ℚ) * 100
    else 0
  { correct_answers := correct_answers
    answered_questions := answered_questions
    score_percentage := round2 score_percentage
    question_results := question_results }

/-- Session-level `calculate_test_score` (server.py 1474): scores a
submission against the session's frozen `question_details` snapshot. -/
def calculate_test_score (session : TestSession) (answers : List TestAnswer) :
    ScoreOutcome :=
  calculate_test_score_core session.question_details answers

/-! ## Time extension and reset (server.py 1538-1635) -/

/-- Embedding of `extend_test_time` (server.py 1538-1585) from the session
lookup on (the role gate above it belongs to the excluded authorization
layer).  Returns the updated store and, on success, the updated session
document (the HTTP response reports the new end time taken from it). -/
def extend_test_time (sessions : List TestSession) (session_id : String)
    (additional_minutes : Int) (reason : Option String)
    (extended_by extended_by_name : String) (now : Int) :
    List TestSession × Except ApiError TestSession :=
  match sessions.find? (fun s => s.id == session_id) with
  | none => (sessions, .error (.notFound "Test session not found"))
  | some session =>
    if session.status ≠ "active" then
      (sessions, .error (.sessionNotActive "Cannot extend time for inactive test session"))
    else
      let extension_record := TimeLogRecord.extensionRecord extended_by extended_by_name
        additional_minutes reason now
      let updated := { session with
        end_time := session.end_time + additional_minutes
        time_extensions := session.time_extensions ++ [extension_record]
        updated_at := now }
      (sessions.map (fun s => if s.id == session_id then updated else s), .ok updated)

/-- Embedding of `reset_test_time` (server.py 1587-1635) from the session
lookup on.  The configuration store stands in for
`db.test_configurations`; a missing configuration would make the Python
subscript fail, embedded as `internalError`. -/
def reset_test_time (configs : List TestConfiguration)
    (sessions : List TestSession) (session_id : String)
    (reset_by reset_by_name : String) (now : Int) :
    List TestSession × Except ApiError TestSession :=
  match sessions.find? (fun s => s.id == session_id) with
  | none => (sessions, .error (.notFound "Test session not found"))
  | some session =>
    if session.status ≠ "active" then
      (sessions, .error (.sessionNotActive "Cannot reset time for inactive test session"))
    else
      match configs.find? (fun c => c.id == session.test_config_id) with
      | none => (sessions, .error (.internalError "test configuration missing"))
      | some test_config =>
        let reset_record := TimeLogRecord.resetRecord reset_by reset_by_name
          test_config.time_limit_minutes now
        let updated := { session with
          end_time := now + test_config.time_limit_minutes
          time_extensions := session.time_extensions ++ [reset_record]
          updated_at := now }
        (sessions.map (fun s => if s.id == session_id then updated else s), .ok updated)

/-! ## Multi-stage testing (server.py 965-1031, 1917-2124) -/

/-- Value model of a `multi_stage_test_configurations` document
(server.py 1755-1774): written-stage parameters plus the pass marks of the
two practical stages. -/
structure MultiStageTestConfiguration where
  id : String
  category_id : String
  written_total_questions : Nat
  written_pass_mark_percentage : Int
  written_time_limit_minutes : Int
  written_difficulty_distribution : List (String × Nat)
  yard_pass_mark_percentage : Int
  road_pass_mark_percentage : Int
  is_active : Bool
deriving DecidableEq, Repr

/-- Value model of an `evaluation_criteria` document (Pydantic
`EvaluationCriterion`, server.py 998-1004). -/
structure EvaluationCriterion where
  id : String
  stage : String
  max_score : Int
  is_critical : Bool
  is_active : Bool
deriving DecidableEq, Repr

/-- One submitted rubric score (Pydantic `StageEvaluation`,
server.py 1019-1022). -/
structure StageEvaluation where
  criterion_id : String
  score : Int
  notes : Option String
deriving DecidableEq, Repr

/-- Request body of the stage-evaluation endpoint (Pydantic `StageResult`,
server.py 1024-1030). -/
structure StageEvalInput where
  session_id : String
  stage : String
  evaluations : List StageEvaluation
  evaluation_notes : Option String
deriving DecidableEq, Repr

/-- Per-stage result slot inside a multi-stage session document
(server.py 1975-1979, updated at 2096-2101).  The written slot links a
written test session, the practical slots an evaluator and a stage-result
record; unused fields stay `none`. -/
structure StageSlot where
  completed : Bool
  passed : Option Bool
  evaluated_by : Option String
  result_id : Option String
  session_id : Option String
deriving DecidableEq, Repr

/-- Value model of a `multi_stage_test_sessions` document
(server.py 1965-1983). -/
structure MultiStageSession where
  id : String
  test_config_id : String
  candidate_id : String
  appointment_id : Option String
  status : String
  current_stage : String
  written_result : StageSlot
  yard_result : StageSlot
  road_result : StageSlot
  failed_stage : Option String
deriving DecidableEq, Repr

/-- Value model of a `stage_results` document (server.py 2071-2091),
immutable once inserted. -/
structure StageResultDoc where
  id : String
  session_id : String
  stage : String
  evaluations : List StageEvaluation
  total_score : Int
  max_possible_score : Int
  score_percentage : ℚ
  pass_percentage : Int
  passed : Bool
  critical_passed : Bool
  evaluated_by : String
  evaluated_by_name : String
  evaluation_notes : Option String
  evaluated_at : Int
deriving DecidableEq, Repr

/-- The multi-stage persistent state: session store and stage-result
store. -/
structure MSState where
  sessions : List MultiStageSession
  stage_results : List StageResultDoc
deriving DecidableEq, Repr

/-- An unevaluated stage slot (server.py 1976-1978). -/
def emptyStageSlot : StageSlot :=
  { completed := false, passed := none, evaluated_by := none,
    result_id := none, session_id := none }

/-- Embedding of `start_multi_stage_test_session` (server.py 1918-1987)
from the configuration lookup on (the candidate checks above it belong to
the excluded layers).  A session in status `active`, `written_passed` or
`yard_passed` for the same candidate and configuration is returned
unchanged; otherwise a fresh session starting at the written stage is
inserted. -/
def start_multi_stage_test_session (configs : List MultiStageTestConfiguration)
    (st : MSState) (test_config_id candidate_id : String)
    (appointment_id : Option String) (new_id : String) :
    MSState × Except ApiError MultiStageSession :=
  match configs.find? (fun c => c.id == test_config_id && c.is_active) with
  | none => (st, .error (.notFound "Multi-stage test configuration not found or inactive"))
  | some _test_config =>
    match st.sessions.find? (fun s =>
        s.candidate_id == candidate_id && s.test_config_id == test_config_id &&
        (s.status == "active" || s.status == "written_passed" || s.status == "yard_passed")) with
    | some active_session => (st, .ok active_session)
    | none =>
      let session_doc : MultiStageSession := {
        id := new_id
        test_config_id := test_config_id
        candidate_id := candidate_id
        appointment_id := appointment_id
        status := "active"
        current_stage := "written"
        written_result := emptyStageSlot
        yard_result := emptyStageSlot
        road_result := emptyStageSlot
        failed_stage := none }
      ({ st with sessions := st.sessions ++ [session_doc] }, .ok session_doc)

/-- Reads the per-stage result slot addressed by the dynamic field path
`stage_results.{stage}`. -/
def getStageSlot (session : MultiStageSession) (stage : String) : StageSlot :=
  if stage == "yard" then session.yard_result
  else if stage == "road" then session.road_result
  else session.written_result

/-- Writes the per-stage result slot addressed by the dynamic field path
`stage_results.{stage}`. -/
def setStageSlot (session : MultiStageSession) (stage : String)
    (slot : StageSlot) : MultiStageSession :=
  if stage == "yard" then { session with yard_result := slot }
  else if stage == "road" then { session with road_result := slot }
  else { session with written_result := slot }

/-- Accumulator of the evaluation loop of server.py 2049-2061. -/
structure EvalAccum where
  total_score : Int
  max_possible_score : Int
  critical_passed : Bool
deriving DecidableEq, Repr

/-- One iteration of the evaluation loop (server.py 2053-2061): the
criterion is looked up by id restricted to the requested stage and active
status; an unknown or inactive criterion contributes nothing; a critical
criterion scored below its max flips `critical_passed` to false, and the
flag never recovers. -/
def evalStep (criteria : List EvaluationCriterion) (stage : String)
    (acc : EvalAccum) (evaluation : StageEvaluation) : EvalAccum :=
  match criteria.find? (fun c =>
      c.id == evaluation.criterion_id && c.stage == stage && c.is_active) with
  | none => acc
  | some criterion =>
    { total_score := acc.total_score + evaluation.score
      max_possible_score := acc.max_possible_score + criterion.max_score
      critical_passed := acc.critical_passed &&
        !(criterion.is_critical && decide (evaluation.score < criterion.max_score)) }

/-- Pass mark of a practical stage, `test_config.get(f"{stage}_pass_mark_percentage", 75)`
at server.py 2064-2065 (both keys are always present on the embedded
configuration). -/
def stagePassMark (test_config : MultiStageTestConfiguration) (stage : String) : Int :=
  if stage == "yard" then test_config.yard_pass_mark_percentage
  else if stage == "road" then test_config.road_pass_mark_percentage
  else 75

/-- Embedding of `evaluate_stage` (server.py 2010-2124) from the
stage-name check on (the officer role gate above it belongs to the
excluded authorization layer).  Returns the state paired with the
response; every rejection leaves the state exactly as it was, because the
code raises before the insert at 2093 and the update at 2119. -/
def evaluate_stage (criteria : List EvaluationCriterion)
    (configs : List MultiStageTestConfiguration) (st : MSState)
    (stage_result : StageEvalInput) (evaluated_by evaluated_by_name : String)
    (result_id : String) (now : Int) : MSState × Except ApiError StageResultDoc :=
  if stage_result.stage ≠ "yard" ∧ stage_result.stage ≠ "road" then
    (st, .error (.invalidStage "Can only evaluate yard or road stages through this endpoint"))
  else
    match st.sessions.find? (fun s => s.id == stage_result.session_id) with
    | none => (st, .error (.notFound "Multi-stage test session not found"))
    | some session =>
      if session.current_stage ≠ stage_result.stage then
        (st, .error (.stageMismatch stage_result.stage session.current_stage))
      else
        match configs.find? (fun c => c.id == session.test_config_id) with
        | none => (st, .error (.notFound "Multi-stage test configuration not found"))
        | some test_config =>
          let accum := stage_result.evaluations.foldl
            (evalStep criteria stage_result.stage)
            { total_score := 0, max_possible_score := 0, critical_passed := true }
          let pass_percentage := stagePassMark test_config stage_result.stage
          let score_percentage : ℚ :=
            if 0 < accum.max_possible_score then
              (accum.total_score : ℚ) / (accum.max_possible_score : ℚ) * 100
            else 0
          let stage_passed :=
            decide ((pass_percentage : ℚ) ≤ score_percentage) && accum.critical_passed
          let result_doc : StageResultDoc := {
            id := result_id
            session_id := stage_result.session_id
            stage := stage_result.stage
            evaluations := stage_result.evaluations
            total_score := accum.total_score
            max_possible_score := accum.max_possible_score
            score_percentage := round2 score_percentage
            pass_percentage := pass_percentage
            passed := stage_passed
            critical_passed := accum.critical_passed
            evaluated_by := evaluated_by
            evaluated_by_name := evaluated_by_name
            evaluation_notes := stage_result.evaluation_notes
            evaluated_at := now }
          let slot := { getStageSlot session stage_result.stage with
            completed := true
            passed := some stage_passed
            evaluated_by := some evaluated_by
            result_id := some result_id }
          let session' := setStageSlot session stage_result.stage slot
          let session'' :=
            if stage_passed then
              if stage_result.stage == "yard" then
                { session' with current_stage := "road", status := "yard_passed" }
              else if stage_result.stage == "road" then
                { session' with current_stage := "completed", status := "completed" }
              else session'
            else
              { session' with status := "failed", failed_stage := some stage_result.stage }
          ({ sessions := st.sessions.map fun s =>
               if s.id == stage_result.session_id then session'' else s
             stage_results := st.stage_results ++ [result_doc] },
           .ok result_doc)

/-- Modelled from the spec: server.py contains no operation that completes
the written stage of a multi-stage session — it only declares the written
parameters of the configuration (1761-1764), the written result slot
(1976) and the `written_passed` status value (1973), while
`evaluate_stage` rejects `stage = "written"` (2019-2023).  Spec section 4.5:
written stage completion is driven by the single-stage Scorer (4.3)
against the multi-stage configuration's written-specific parameters; on
pass, `current_stage → yard` and `status → written_passed`; on fail,
`status → failed` with `current_stage` frozen at `written`, the failed
stage recorded, and the written result slot linking the written test
session in either case. -/
def complete_written_stage (test_config : MultiStageTestConfiguration)
    (session : MultiStageSession) (question_details : List Question)
    (answers : List TestAnswer) (written_session_id : String) : MultiStageSession :=
  let outcome := calculate_test_score_core question_details answers
  let passed := (test_config.written_pass_mark_percentage : ℚ) ≤ outcome.score_percentage
  let slot := { session.written_result with
    completed := true
    passed := some passed
    session_id := some written_session_id }
  if passed then
    { session with written_result := slot, current_stage := "yard", status := "written_passed" }
  else
    { session with written_result := slot, status := "failed", failed_stage := some "written" }

/-- Modelled from the spec: store-level form of `complete_written_stage`,
rewriting the addressed session in the session store. -/
def complete_written_stage_state (test_config : MultiStageTestConfiguration)
    (st : MSState) (session_id : String) (question_details : List Question)
    (answers : List TestAnswer) (written_session_id : String) : MSState :=
  { st with sessions := st.sessions.map fun s =>
      if s.id == session_id then
        complete_written_stage test_config s question_details answers written_session_id
      else s }

/-! ## Spec-side definitions used for refinement comparisons -/

/-- Bucket size as the specification's sentence literally states it:
`needed = round(percentage/100 * total)`, with Python's `round`.  Stated
for comparison with `questionsNeeded`, which embeds the source's `int(...)`
truncation. -/
def questionsNeededSpecRound (percentage total_questions : Nat) : Nat :=
  (pythonRound ((percentage : ℚ) / 100 * (total_questions : ℚ))).toNat

/-- Relation between two question snapshots that differ at most in the
answer-revealing fields: the options' `is_correct` flags and the
true/false `correct_answer` key.  Everything else — id, category, type,
text, the option texts in order, difficulty, approval status — agrees. -/
def questionAnswerEquiv (q1 q2 : Question) : Prop :=
  q1.id = q2.id ∧ q1.category_id = q2.category_id ∧
  q1.question_type = q2.question_type ∧ q1.question_text = q2.question_text ∧
  q1.options.map (·.text) = q2.options.map (·.text) ∧
  q1.difficulty = q2.difficulty ∧ q1.status = q2.status

/-- Relation between two stored sessions that differ at most in the
answer-revealing fields of their frozen `question_details` snapshots. -/
def sessionSnapshotEquiv (s1 s2 : TestSession) : Prop :=
  s1.id = s2.id ∧ s1.test_config_id = s2.test_config_id ∧
  s1.candidate_id = s2.candidate_id ∧ s1.questions = s2.questions ∧
  List.Forall₂ questionAnswerEquiv s1.question_details s2.question_details ∧
  s1.start_time = s2.start_time ∧ s1.end_time = s2.end_time ∧
  s1.time_limit_minutes = s2.time_limit_minutes ∧
  s1.time_extensions = s2.time_extensions ∧ s1.status = s2.status ∧
  s1.answers = s2.answers ∧ s1.bookmarked_questions = s2.bookmarked_questions ∧
  s1.updated_at = s2.updated_at

/-! ## Concrete fixtures for witnesses and counterexamples -/

/-- Fixture: a multiple-choice question whose first option is the correct
one. -/
def fxMcQuestion : Question := {
  id := "q1", category_id := "cat1", question_type := "multiple_choice",
  question_text := "Q1", options := [⟨"first", true⟩, ⟨"second", false⟩],
  correct_answer := none, difficulty := "easy", status := "approved" }

/-- Fixture: the same snapshot question with the correct flag moved to the
second option; related to `fxMcQuestion` by `questionAnswerEquiv`. -/
def fxMcQuestionFlipped : Question := {
  id := "q1", category_id := "cat1", question_type := "multiple_choice",
  question_text := "Q1", options := [⟨"first", false⟩, ⟨"second", true⟩],
  correct_answer := none, difficulty := "easy", status := "approved" }

/-- Fixture: a true/false question whose key is `true`. -/
def fxTfQuestion : Question := {
  id := "wq1", category_id := "cat1", question_type := "true_false",
  question_text := "W1", options := [], correct_answer := some true,
  difficulty := "easy", status := "approved" }

/-- Fixture: an active single-stage session holding `fxMcQuestion` in its
frozen snapshot, with an hour left on the clock. -/
def fxActiveSession : TestSession := {
  id := "s1", test_config_id := "cfg1", candidate_id := "cand1",
  questions := ["q1"], question_details := [fxMcQuestion],
  start_time := 0, end_time := 100, time_limit_minutes := 100,
  time_extensions := [], status := "active", answers := [],
  bookmarked_questions := [], updated_at := 0 }

/-- Fixture: the same stored session with the snapshot's correct flag
flipped; related to `fxActiveSession` by `sessionSnapshotEquiv`. -/
def fxActiveSessionFlipped : TestSession :=
  { fxActiveSession with question_details := [fxMcQuestionFlipped] }

/-- Fixture: the test configuration the fixture sessions point at. -/
def fxConfig : TestConfiguration := {
  id := "cfg1", category_id := "cat1", total_questions := 1,
  pass_mark_percentage := 75, time_limit_minutes := 100, is_active := true,
  difficulty_distribution := [("easy", 100)] }

/-- Fixture: a two-question approved pool in one category, one easy and
one medium question. -/
def fxDb : List Question := [
  fxMcQuestion,
  { id := "q2", category_id := "cat1", question_type := "true_false",
    question_text := "Q2", options := [], correct_answer := some false,
    difficulty := "medium", status := "approved" }]

/-- Fixture: a difficulty distribution summing to 100 over distinct
buckets. -/
def fxDist : List (String × Nat) := [("easy", 50), ("medium", 50)]

/-- Fixture: a configuration asking for more questions than `fxDb` can
provide, to exercise the insufficient-questions failure. -/
def fxConfigTooBig : TestConfiguration := {
  id := "cfg9", category_id := "cat1", total_questions := 5,
  pass_mark_percentage := 75, time_limit_minutes := 100, is_active := true,
  difficulty_distribution := fxDist }

/-- Fixture: a multi-stage configuration with all pass marks at 75. -/
def fxMsConfig : MultiStageTestConfiguration := {
  id := "mcfg1", category_id := "cat1", written_total_questions := 1,
  written_pass_mark_percentage := 75, written_time_limit_minutes := 25,
  written_difficulty_distribution := [("easy", 100)],
  yard_pass_mark_percentage := 75, road_pass_mark_percentage := 75,
  is_active := true }

/-- Fixture: a non-critical active yard criterion worth 10 points. -/
def fxYardCriterion : EvaluationCriterion := {
  id := "crit1", stage := "yard", max_score := 10, is_critical := false,
  is_active := true }

/-- Fixture: a critical active yard criterion worth 10 points. -/
def fxCriticalCriterion : EvaluationCriterion := {
  id := "crit2", stage := "yard", max_score := 10, is_critical := true,
  is_active := true }

/-- Fixture: a correct submission for the fixture written test. -/
def fxWrittenAnswers : List TestAnswer :=
  [{ question_id := "wq1", selected_option := none,
     boolean_answer := some true, is_bookmarked := false }]

/-- Fixture: the written result slot of a passed written stage. -/
def fxPassedWrittenSlot : StageSlot :=
  { emptyStageSlot with completed := true, passed := some true, session_id := some "ws1" }

/-- Fixture: the yard result slot of a failed yard evaluation. -/
def fxFailedYardSlot : StageSlot :=
  { completed := true, passed := some false, evaluated_by := some "off",
    result_id := some "r1", session_id := none }

/-- Fixture: a multi-stage session standing at the yard stage after a
passed written stage. -/
def fxMsYardSession : MultiStageSession := {
  id := "ms1", test_config_id := "mcfg1", candidate_id := "cand1",
  appointment_id := none, status := "written_passed", current_stage := "yard",
  written_result := fxPassedWrittenSlot,
  yard_result := emptyStageSlot, road_result := emptyStageSlot,
  failed_stage := none }

/-- Fixture: a multi-stage session frozen at the yard stage after failing
it. -/
def fxMsFailedSession : MultiStageSession :=
  { fxMsYardSession with
    status := "failed"
    yard_result := fxFailedYardSlot
    failed_stage := some "yard" }

/-- Fixture: a multi-stage session still at the written stage. -/
def fxMsWrittenSession : MultiStageSession := {
  id := "ms0", test_config_id := "mcfg1", candidate_id := "cand1",
  appointment_id := none, status := "active", current_stage := "written",
  written_result := emptyStageSlot, yard_result := emptyStageSlot,
  road_result := emptyStageSlot, failed_stage := none }

/-- Fixture: a store holding the yard-stage session. -/
def fxMsStateYard : MSState := { sessions := [fxMsYardSession], stage_results := [] }

/-- Fixture: a store holding the failed yard-stage session. -/
def fxMsStateFailed : MSState := { sessions := [fxMsFailedSession], stage_results := [] }

/-- Fixture: an evaluation request targeting the written stage. -/
def fxWrittenEvalRequest : StageEvalInput := {
  session_id := "ms1", stage := "written", evaluations := [],
  evaluation_notes := none }

/-- Fixture: an empty evaluation request targeting the road stage. -/
def fxRoadEvalRequest : StageEvalInput := {
  session_id := "ms1", stage := "road", evaluations := [],
  evaluation_notes := none }

/-- Fixture: a yard evaluation scoring the critical criterion below its
maximum while acing the non-critical one. -/
def fxCriticalFailRequest : StageEvalInput := {
  session_id := "ms1", stage := "yard",
  evaluations := [
    { criterion_id := "crit1", score := 10, notes := none },
    { criterion_id := "crit2", score := 6, notes := none }],
  evaluation_notes := none }

/-- Fixture: a submission answering the fixture multiple-choice question
with letter A. -/
def fxAnswerA : TestAnswer := {
  question_id := "q1", selected_option := some "A", boolean_answer := none,
  is_bookmarked := false }

/-- Trace state: empty multi-stage store. -/
def c2State0 : MSState := { sessions := [], stage_results := [] }

/-- Trace state: after `start_multi_stage_test_session` for the fixture
candidate and configuration. -/
def c2State1 : MSState :=
  (start_multi_stage_test_session [fxMsConfig] c2State0 "mcfg1" "cand1" none "ms1").1

/-- Trace state: after the (spec-modelled) written stage completes with a
perfect score, moving the session to the yard stage. -/
def c2State2 : MSState :=
  complete_written_stage_state fxMsConfig c2State1 "ms1" [fxTfQuestion]
    fxWrittenAnswers "ws1"

/-- Evaluation request scoring the single yard criterion at zero. -/
def c2YardFailRequest : StageEvalInput := {
  session_id := "ms1", stage := "yard",
  evaluations := [{ criterion_id := "crit1", score := 0, notes := none }],
  evaluation_notes := none }

/-- Evaluation request scoring the single yard criterion at its maximum. -/
def c2YardPassRequest : StageEvalInput := {
  session_id := "ms1", stage := "yard",
  evaluations := [{ criterion_id := "crit1", score := 10, notes := none }],
  evaluation_notes := none }

/-- Trace state: after a failing yard evaluation, leaving the session in
status `failed`, frozen at `current_stage = yard`. -/
def c2State3 : MSState :=
  (evaluate_stage [fxYardCriterion] [fxMsConfig] c2State2 c2YardFailRequest
    "off" "Officer" "r1" 0).1

/-- Trace step: a second yard evaluation submitted against the failed
session. -/
def c2Step4 : MSState × Except ApiError StageResultDoc :=
  evaluate_stage [fxYardCriterion] [fxMsConfig] c2State3 c2YardPassRequest
    "off" "Officer" "r2" 1

/-- Expected session record right after the multi-stage start. -/
def fxC2Start : MultiStageSession := {
  id := "ms1", test_config_id := "mcfg1", candidate_id := "cand1",
  appointment_id := none, status := "active", current_stage := "written",
  written_result := emptyStageSlot, yard_result := emptyStageSlot,
  road_result := emptyStageSlot, failed_stage := none }

/-- Expected session record after the passed written stage. -/
def fxC2AfterWritten : MultiStageSession :=
  { fxC2Start with
    status := "written_passed"
    current_stage := "yard"
    written_result := { emptyStageSlot with completed := true, passed := some true, session_id := some "ws1" } }

/-- Expected session record after the failed yard evaluation: status
failed, current_stage frozen at yard. -/
def fxC2AfterYardFail : MultiStageSession :=
  { fxC2AfterWritten with
    status := "failed"
    yard_result := { emptyStageSlot with completed := true, passed := some false, evaluated_by := some "off", result_id := some "r1" }
    failed_stage := some "yard" }

/-- Expected session record after the second (passing) yard evaluation of
the already-failed session: the failed session was revived and moved on to
the road stage. -/
def fxC2Resurrected : MultiStageSession :=
  { fxC2AfterYardFail with
    status := "yard_passed"
    current_stage := "road"
    yard_result := { emptyStageSlot with completed := true, passed := some true, evaluated_by := some "off", result_id := some "r2" } }

/-! ## Theorems -/

/-- Helper: the assembled save-answer update document never passes driver
validation — one of `$addToSet` / `$pull` is always present, so the
re-ordered merged document is chosen, and its first key is the plain
`answers.{question_id}` or `updated_at` field. -/
theorem save_answer_update_never_valid (answer_data : TestAnswer) (now : Int) :
    pymongo_update_ok (save_answer_update_doc (save_answer_update_data answer_data now))
      = false := by
  unfold save_answer_update_data save_answer_update_doc
  cases hb : answer_data.is_bookmarked <;>
    cases ha : (answer_data.selected_option.isSome || answer_data.boolean_answer.isSome) <;>
      simp [ha, UpdEntry.isAddToSetKey, UpdEntry.isPullKey, UpdEntry.isDollarKey,
        pymongo_update_ok]

/-- Helper: no save-answer request ever succeeds — every update document
the endpoint assembles is rejected by the driver before reaching the
store. -/
theorem save_test_answer_never_succeeds (sessions : List TestSession)
    (session_id : String) (answer_data : TestAnswer) (now : Int)
    (s : TestSession) :
    save_test_answer sessions session_id answer_data now ≠ .ok s := by
  unfold save_test_answer
  cases hf : sessions.find? (fun s => s.id == session_id) with
  | none => simp
  | some session =>
    split
    · simp
    · split
      · simp
      · simp only [save_answer_update_never_valid]
        split <;> simp

/-- Claim C6 (code bug): a well-formed save-answer request on an active,
non-expired session does not succeed — the endpoint assembles a MongoDB
update document mixing the plain `answers.{question_id}` / `updated_at`
fields with the `$addToSet` / `$pull` operators, which the driver rejects
(`update only works with $ operators`), so neither the answer upsert nor
the bookmark change is applied, while the claim (and the repository's own
test suite) expects the call to succeed with both effects. -/
theorem C6_save_answer_driver_rejection :
    save_test_answer [fxActiveSession] "s1" fxAnswerA 50
      = .driverError "update only works with dollar operators" := rfl

/-- Claim C8, counterexample: for `percentage = 75` and `total = 2` the
code's bucket size `int((75/100)*2) = 1` differs from the claimed
`round((75/100)*2) = round(1.5) = 2`. -/
theorem C8_counterexample :
    questionsNeeded 75 2 = 1 ∧ questionsNeededSpecRound 75 2 = 2 ∧
    questionsNeeded 75 2 ≠ questionsNeededSpecRound 75 2 := by
  have h2 : questionsNeededSpecRound 75 2 = 2 := by
    rw [questionsNeededSpecRound, pythonRound]
    norm_num
    decide
  exact ⟨rfl, h2, by rw [h2]; decide⟩


/-- Claim C8 (amended): for each difficulty bucket the number of questions
taken is `needed = floor(percentage/100 * total)` (Python `int`
truncation, not `round`), and when `needed > 0` the bucket contribution is
obtained by fetching the bucket's approved questions with 2x oversampling
(`take (needed * 2)`), shuffling, and taking the first `needed`. -/
theorem C8_bucket_selection (shuffle : List Question → List Question)
    (db : List Question) (category_id : String) (total_questions : Nat)
    (difficulty : String) (percentage : Nat)
    (h : 0 < questionsNeeded percentage total_questions) :
    questionsNeeded percentage total_questions
        = ⌊(percentage : ℚ) / 100 * (total_questions : ℚ)⌋₊ ∧
    bucketQuestions shuffle db category_id total_questions difficulty percentage
      = (shuffle ((bucketFilter db category_id difficulty).take
          (questionsNeeded percentage total_questions * 2))).take
          (questionsNeeded percentage total_questions) := by
  constructor
  · rw [questionsNeeded, div_mul_eq_mul_div, ← Nat.cast_mul]
    rw [show (100 : ℚ) = ((100 : ℕ) : ℚ) by norm_num]
    rw [Nat.floor_div_nat, Nat.floor_natCast]
  · simp [bucketQuestions, h]

/-- Witness for C8_bucket_selection at `percentage = 50`,
`total_questions = 2` over the fixture pool. -/
theorem C8_bucket_selection_witness :
    0 < questionsNeeded 50 2 ∧
    (questionsNeeded 50 2 = ⌊(50 : ℚ) / 100 * (2 : ℚ)⌋₊ ∧
     bucketQuestions id fxDb "cat1" 2 "easy" 50
       = (id ((bucketFilter fxDb "cat1" "easy").take (questionsNeeded 50 2 * 2))).take
           (questionsNeeded 50 2)) :=
  ⟨by decide, C8_bucket_selection id fxDb "cat1" 2 "easy" 50 (by decide)⟩

/-- Claim C9, counterexample: the code accepts a negative extension — on
the active fixture session with `end_time = 100`, `extend` by `-10`
minutes succeeds and moves `end_time` down to `90`, so a successful
extension does not always increase `end_time` and `end_time` does not only
move forward. -/
theorem C9_counterexample :
    (extend_test_time [fxActiveSession] "s1" (-10) none "mgr" "Mgr" 50).2.toOption.map
        (fun s => s.end_time) = some 90 ∧
    fxActiveSession.status = "active" ∧ (90 : Int) < fxActiveSession.end_time :=
  ⟨rfl, rfl, by decide⟩

/-- Claim C9 (amended): on an active session a successful `extend` sets
`end_time` to exactly the old `end_time` plus the requested minutes —
an increase whenever the requested minutes are positive (the code does not
validate positivity) — appending one extension record; a successful
`reset` sets `end_time` to `now` plus the configuration's original time
limit — never earlier than `now` when the limit is non-negative —
appending one reset record to the same ordered extension-history log. -/
theorem C9_time_mutations (configs : List TestConfiguration)
    (sessions : List TestSession) (session_id : String)
    (additional_minutes : Int) (reason : Option String)
    (by_email by_name : String) (now : Int) :
    (∀ session, sessions.find? (fun s => s.id == session_id) = some session →
      session.status = "active" →
      (extend_test_time sessions session_id additional_minutes reason by_email by_name now).2
        = .ok { session with
            end_time := session.end_time + additional_minutes
            time_extensions := session.time_extensions
              ++ [.extensionRecord by_email by_name additional_minutes reason now]
            updated_at := now } ∧
      (0 < additional_minutes → session.end_time < session.end_time + additional_minutes)) ∧
    (∀ session test_config,
      sessions.find? (fun s => s.id == session_id) = some session →
      session.status = "active" →
      configs.find? (fun c => c.id == session.test_config_id) = some test_config →
      (reset_test_time configs sessions session_id by_email by_name now).2
        = .ok { session with
            end_time := now + test_config.time_limit_minutes
            time_extensions := session.time_extensions
              ++ [.resetRecord by_email by_name test_config.time_limit_minutes now]
            updated_at := now } ∧
      (0 ≤ test_config.time_limit_minutes → now ≤ now + test_config.time_limit_minutes)) := by
  constructor
  · intro session hfind hactive
    refine ⟨?_, fun hm => by omega⟩
    simp [extend_test_time, hfind, hactive]
  · intro session test_config hfind hactive hcfg
    refine ⟨?_, fun hm => by omega⟩
    simp [reset_test_time, hfind, hactive, hcfg]

/-- Witness for C9_time_mutations on the active fixture session. -/
theorem C9_time_mutations_witness :
    (extend_test_time [fxActiveSession] "s1" 10 none "mgr" "Mgr" 50).2
      = .ok { fxActiveSession with
          end_time := fxActiveSession.end_time + 10
          time_extensions := fxActiveSession.time_extensions
            ++ [.extensionRecord "mgr" "Mgr" 10 none 50]
          updated_at := 50 } ∧
    (reset_test_time [fxConfig] [fxActiveSession] "s1" "mgr" "Mgr" 50).2
      = .ok { fxActiveSession with
          end_time := 50 + fxConfig.time_limit_minutes
          time_extensions := fxActiveSession.time_extensions
            ++ [.resetRecord "mgr" "Mgr" fxConfig.time_limit_minutes 50]
          updated_at := 50 } :=
  ⟨((C9_time_mutations [fxConfig] [fxActiveSession] "s1" 10 none "mgr" "Mgr" 50).1
      fxActiveSession rfl rfl).1,
   ((C9_time_mutations [fxConfig] [fxActiveSession] "s1" 10 none "mgr" "Mgr" 50).2
      fxActiveSession fxConfig rfl rfl rfl).1⟩

/-- Claim C5: `evaluate_stage` rejects a request for the written stage
with the invalid-stage error, and a request whose stage (yard or road)
differs from the session's current stage with the stage-mismatch error;
in either case the state — session store and stage-result store — is
returned unchanged, so no `StageResult` is written and the session keeps
its fields. -/
theorem C5_evaluate_stage_rejections (criteria : List EvaluationCriterion)
    (configs : List MultiStageTestConfiguration) (st : MSState)
    (stage_result : StageEvalInput) (evaluated_by evaluated_by_name result_id : String)
    (now : Int) :
    (stage_result.stage = "written" →
      evaluate_stage criteria configs st stage_result evaluated_by evaluated_by_name result_id now
        = (st, .error (.invalidStage "Can only evaluate yard or road stages through this endpoint"))) ∧
    (∀ session, st.sessions.find? (fun s => s.id == stage_result.session_id) = some session →
      (stage_result.stage = "yard" ∨ stage_result.stage = "road") →
      session.current_stage ≠ stage_result.stage →
      evaluate_stage criteria configs st stage_result evaluated_by evaluated_by_name result_id now
        = (st, .error (.stageMismatch stage_result.stage session.current_stage))) := by
  constructor
  · intro h
    rw [evaluate_stage, if_pos]
    rw [h]
    exact ⟨by decide, by decide⟩
  · intro session hfind hyr hne
    have hstage : ¬(stage_result.stage ≠ "yard" ∧ stage_result.stage ≠ "road") := by
      rcases hyr with h | h <;> rw [h] <;> simp
    rw [evaluate_stage, if_neg hstage]
    simp only [hfind]
    rw [if_pos hne]

/-- Witness for C5_evaluate_stage_rejections: a written-stage request and
a road-stage request against the yard-stage fixture session are both
rejected without change. -/
theorem C5_witness :
    evaluate_stage [] [] fxMsStateYard fxWrittenEvalRequest "off" "Off" "r1" 0
      = (fxMsStateYard,
         .error (.invalidStage "Can only evaluate yard or road stages through this endpoint")) ∧
    evaluate_stage [] [] fxMsStateYard fxRoadEvalRequest "off" "Off" "r1" 0
      = (fxMsStateYard,
         .error (.stageMismatch fxRoadEvalRequest.stage fxMsYardSession.current_stage)) :=
  ⟨(C5_evaluate_stage_rejections [] [] fxMsStateYard fxWrittenEvalRequest
      "off" "Off" "r1" 0).1 rfl,
   (C5_evaluate_stage_rejections [] [] fxMsStateYard fxRoadEvalRequest
      "off" "Off" "r1" 0).2 fxMsYardSession rfl (Or.inr rfl) (by decide)⟩

/-- Claim C1 (spec-modelled): completing the written stage of a
multi-stage session scores the written submission with the single-stage
Scorer against the configuration's written pass mark; a passing score
moves `current_stage` to `yard` with status `written_passed`; a failing
score sets status `failed` with `current_stage` frozen at `written`. -/
theorem C1_written_stage_completion (test_config : MultiStageTestConfiguration)
    (session : MultiStageSession) (question_details : List Question)
    (answers : List TestAnswer) (written_session_id : String)
    (hstage : session.current_stage = "written") :
    ((test_config.written_pass_mark_percentage : ℚ)
        ≤ (calculate_test_score_core question_details answers).score_percentage →
      (complete_written_stage test_config session question_details answers
          written_session_id).current_stage = "yard" ∧
      (complete_written_stage test_config session question_details answers
          written_session_id).status = "written_passed") ∧
    ((calculate_test_score_core question_details answers).score_percentage
        < (test_config.written_pass_mark_percentage : ℚ) →
      (complete_written_stage test_config session question_details answers
          written_session_id).status = "failed" ∧
      (complete_written_stage test_config session question_details answers
          written_session_id).current_stage = "written") := by
  constructor
  · intro h
    simp only [complete_written_stage]
    rw [if_pos h]
    exact ⟨rfl, rfl⟩
  · intro h
    simp only [complete_written_stage]
    rw [if_neg (not_le.mpr h)]
    exact ⟨rfl, hstage⟩

/-- Helper: the fixture written submission answers its single true/false
question correctly, scoring 100 percent. -/
theorem fxWrittenScore :
    (calculate_test_score_core [fxTfQuestion] fxWrittenAnswers).score_percentage = 100 := by
  show round2 _ = 100
  norm_num [fxTfQuestion, fxWrittenAnswers, answersDict, scoreQuestion, round2, pythonRound]

/-- Witness for C1_written_stage_completion: the fixture written test is
answered perfectly, so the session advances to the yard stage with status
written_passed. -/
theorem C1_witness :
    (complete_written_stage fxMsConfig fxMsWrittenSession [fxTfQuestion]
        fxWrittenAnswers "ws1").current_stage = "yard" ∧
    (complete_written_stage fxMsConfig fxMsWrittenSession [fxTfQuestion]
        fxWrittenAnswers "ws1").status = "written_passed" :=
  (C1_written_stage_completion fxMsConfig fxMsWrittenSession [fxTfQuestion]
      fxWrittenAnswers "ws1" rfl).1 (by rw [fxWrittenScore]; norm_num [fxMsConfig])

/-- Claim C10: for a multiple-choice snapshot question with at least one
option and at least one `is_correct` flag, the scorer labels the first
flagged option by its list position as a letter (`chr(65 + i)`), and
marks an answered question correct exactly when the submitted
`selected_option` equals that letter label. -/
theorem C10_multiple_choice_letter_grading (session : TestSession)
    (answers : List TestAnswer) (question : Question) (j : Nat)
    (hj : session.question_details.get? j = some question)
    (htype : question.question_type = "multiple_choice")
    (hopts : question.options ≠ [])
    (ua : TestAnswer) (hua : answersDict answers question.id = some ua)
    (i : Nat) (hi : question.options.findIdx? (fun o => o.is_correct) = some i) :
    (calculate_test_score session answers).question_results.get? j
      = some (scoreQuestion (answersDict answers) question) ∧
    ((scoreQuestion (answersDict answers) question).is_correct = true
      ↔ ua.selected_option = some (Char.ofNat (65 + i)).toString) := by
  constructor
  · rw [calculate_test_score, calculate_test_score_core]
    simp only [List.get?_map, hj]
    rfl
  · rw [scoreQuestion]
    rw [hua]
    simp only [htype]
    rw [if_pos]
    · rw [findCorrectOption, hi]
      simp
    · simp [hopts]

/-- Witness for C10_multiple_choice_letter_grading: answering the fixture
question with letter A, the label of its first (correct) option. -/
theorem C10_witness :
    (calculate_test_score fxActiveSession [fxAnswerA]).question_results.get? 0
      = some (scoreQuestion (answersDict [fxAnswerA]) fxMcQuestion) ∧
    ((scoreQuestion (answersDict [fxAnswerA]) fxMcQuestion).is_correct = true
      ↔ fxAnswerA.selected_option = some (Char.ofNat (65 + 0)).toString) :=
  C10_multiple_choice_letter_grading fxActiveSession [fxAnswerA] fxMcQuestion 0
    rfl rfl (by decide) fxAnswerA rfl 0 rfl

/-- Helper: once the accumulated critical flag is false it stays false for
the remainder of the evaluation loop. -/
theorem evalAccum_false_stays (criteria : List EvaluationCriterion) (stage : String)
    (evals : List StageEvaluation) (acc : EvalAccum)
    (h : acc.critical_passed = false) :
    (evals.foldl (evalStep criteria stage) acc).critical_passed = false := by
  induction evals generalizing acc with
  | nil => exact h
  | cons e rest ih =>
    apply ih
    cases hfind : criteria.find?
        (fun c => c.id == e.criterion_id && c.stage == stage && c.is_active) with
    | none => simpa [evalStep, hfind] using h
    | some c => simp [evalStep, hfind, h]

/-- Helper: a submitted evaluation scoring an active critical criterion of
the stage below its maximum forces the accumulated critical flag to
false. -/
theorem evalAccum_critical_failed (criteria : List EvaluationCriterion) (stage : String)
    (evals : List StageEvaluation) (acc : EvalAccum) (ev : StageEvaluation)
    (hev : ev ∈ evals) (crit : EvaluationCriterion)
    (hfind : criteria.find?
      (fun c => c.id == ev.criterion_id && c.stage == stage && c.is_active) = some crit)
    (hc : crit.is_critical = true) (hlt : ev.score < crit.max_score) :
    (evals.foldl (evalStep criteria stage) acc).critical_passed = false := by
  induction evals generalizing acc with
  | nil => cases hev
  | cons e rest ih =>
    rcases List.mem_cons.mp hev with heq | hmem
    · subst heq
      rw [List.foldl_cons]
      apply evalAccum_false_stays
      unfold evalStep
      rw [hfind]
      simp [hc, hlt]
    · exact ih _ hmem

/-- Helper: replacing the session found by id keeps it the session a
subsequent lookup returns, provided the replacement keeps the id. -/
theorem find?_update_eq (sessions : List MultiStageSession) (sid : String)
    (session s'' : MultiStageSession)
    (hfind : sessions.find? (fun s => s.id == sid) = some session)
    (hid : (s''.id == sid) = true) :
    (sessions.map fun s => if s.id == sid then s'' else s).find?
        (fun s => s.id == sid) = some s'' := by
  induction sessions with
  | nil => simp at hfind
  | cons a rest ih =>
    rw [List.map_cons]
    by_cases ha : (a.id == sid) = true
    · rw [if_pos ha]
      simp [List.find?_cons, hid]
    · have hafalse : (a.id == sid) = false := by simpa using ha
      rw [if_neg ha]
      simp only [List.find?_cons, hafalse] at hfind ⊢
      exact ih hfind

/-- Helper: writing a stage slot does not touch the session's id. -/
theorem setStageSlot_id (session : MultiStageSession) (stage : String)
    (slot : StageSlot) : (setStageSlot session stage slot).id = session.id := by
  rw [setStageSlot]
  split_ifs <;> rfl

/-- Claim C4: when `evaluate_stage` is accepted for the session's current
practical stage and some submitted evaluation scores an active critical
criterion of that stage below its maximum, the recorded StageResult has
`critical_passed = false` and `passed = false` regardless of the aggregate
percentage, and the session's status becomes `failed`. -/
theorem C4_critical_criterion_gating (criteria : List EvaluationCriterion)
    (configs : List MultiStageTestConfiguration) (st : MSState)
    (stage_result : StageEvalInput) (evaluated_by evaluated_by_name result_id : String)
    (now : Int) (session : MultiStageSession)
    (test_config : MultiStageTestConfiguration)
    (hyr : stage_result.stage = "yard" ∨ stage_result.stage = "road")
    (hfind : st.sessions.find? (fun s => s.id == stage_result.session_id) = some session)
    (hcur : session.current_stage = stage_result.stage)
    (hcfg : configs.find? (fun c => c.id == session.test_config_id) = some test_config)
    (ev : StageEvaluation) (hev : ev ∈ stage_result.evaluations)
    (crit : EvaluationCriterion)
    (hcrit : criteria.find? (fun c =>
      c.id == ev.criterion_id && c.stage == stage_result.stage && c.is_active) = some crit)
    (hc : crit.is_critical = true) (hlt : ev.score < crit.max_score) :
    ∃ doc s'',
      (evaluate_stage criteria configs st stage_result evaluated_by evaluated_by_name
        result_id now).2 = .ok doc ∧
      doc.critical_passed = false ∧ doc.passed = false ∧
      (evaluate_stage criteria configs st stage_result evaluated_by evaluated_by_name
          result_id now).1.sessions.find? (fun s => s.id == stage_result.session_id)
        = some s'' ∧
      s''.status = "failed" := by
  have hstage : ¬(stage_result.stage ≠ "yard" ∧ stage_result.stage ≠ "road") := by
    rcases hyr with h | h <;> rw [h] <;> simp
  have hacc : (stage_result.evaluations.foldl (evalStep criteria stage_result.stage)
      { total_score := 0, max_possible_score := 0, critical_passed := true }).critical_passed
        = false :=
    evalAccum_critical_failed criteria stage_result.stage stage_result.evaluations _
      ev hev crit hcrit hc hlt
  have hid : (session.id == stage_result.session_id) = true := by
    have := List.find?_some hfind
    simpa using this
  rw [evaluate_stage, if_neg hstage]
  simp only [hfind]
  rw [if_neg (by rw [hcur]; simp)]
  simp only [hcfg, hacc, Bool.and_false]
  simp only [if_neg (by simp : ¬(false = true))]
  exact ⟨_, _, rfl, rfl, rfl,
    find?_update_eq st.sessions stage_result.session_id session _ hfind
      (by simpa [setStageSlot_id] using hid), rfl⟩

/-- Witness for C4_critical_criterion_gating: the fixture yard evaluation
scores the critical criterion 6 of 10 while acing the other criterion
(16 of 20 = 80 percent, above the 75 percent pass mark), yet the stage
fails. -/
theorem C4_witness :
    ∃ doc s'',
      (evaluate_stage [fxYardCriterion, fxCriticalCriterion] [fxMsConfig] fxMsStateYard
        fxCriticalFailRequest "off" "Off" "r1" 0).2 = .ok doc ∧
      doc.critical_passed = false ∧ doc.passed = false ∧
      (evaluate_stage [fxYardCriterion, fxCriticalCriterion] [fxMsConfig] fxMsStateYard
          fxCriticalFailRequest "off" "Off" "r1" 0).1.sessions.find?
        (fun s => s.id == fxCriticalFailRequest.session_id) = some s'' ∧
      s''.status = "failed" :=
  C4_critical_criterion_gating [fxYardCriterion, fxCriticalCriterion] [fxMsConfig]
    fxMsStateYard fxCriticalFailRequest "off" "Off" "r1" 0 fxMsYardSession fxMsConfig
    (Or.inl rfl) rfl rfl rfl
    { criterion_id := "crit2", score := 6, notes := none } (by decide)
    fxCriticalCriterion rfl rfl (by decide)

/-- Helper: pointwise-related lists relate their entries at every
index. -/
theorem forall2_get?_some {α β : Type} {R : α → β → Prop}
    {l1 : List α} {l2 : List β} (h : List.Forall₂ R l1 l2) :
    ∀ i a, l1.get? i = some a → ∃ b, l2.get? i = some b ∧ R a b := by
  induction h with
  | nil => intro i a ha; simp at ha
  | cons hab htail ih =>
    intro i a ha
    cases i with
    | zero =>
      rw [List.get?_cons_zero] at ha
      cases ha
      exact ⟨_, rfl, hab⟩
    | succ n =>
      rw [List.get?_cons_succ] at ha
      exact ih n a ha

/-- Claim C3 (amended): `get_question_by_index` is insensitive to the
answer-revealing snapshot fields — for two stored sessions that differ
only in the options' `is_correct` flags and the true/false
`correct_answer` of their frozen snapshots, its responses are identical;
but `get_test_session` and a repeated `start` return the stored session
document verbatim, `question_details` included, so their responses can
differ (see the counterexample). -/
theorem C3_get_question_redaction (s1 s2 : TestSession)
    (h : sessionSnapshotEquiv s1 s2) (session_id : String)
    (question_index now : Int) :
    get_question_by_index [s1] session_id question_index now
      = get_question_by_index [s2] session_id question_index now := by
  obtain ⟨hid, hcfg, hcand, hqs, hdetails, hstart, hend, hlimit, hext, hstatus,
    hans, hbook, hupd⟩ := h
  have hlen : s1.question_details.length = s2.question_details.length :=
    hdetails.length_eq
  unfold get_question_by_index
  by_cases hp : (s1.id == session_id) = true
  · have hp2 : (s2.id == session_id) = true := by rw [← hid]; exact hp
    simp only [List.find?_cons, List.find?_nil, hp, hp2]
    rw [← hstatus, ← hend, ← hlen, ← hans, ← hbook]
    by_cases hs : s1.status ≠ "active"
    · rw [if_pos hs, if_pos hs]
    · rw [if_neg hs, if_neg hs]
      by_cases he : s1.end_time < now
      · rw [if_pos he, if_pos he]
      · rw [if_neg he, if_neg he]
        by_cases hb : question_index < 0 ∨
            (s1.question_details.length : Int) ≤ question_index
        · rw [if_pos hb, if_pos hb]
        · rw [if_neg hb, if_neg hb]
          have hb' := hb
          push_neg at hb'
          obtain ⟨hb1, hb2⟩ := hb'
          have hlt : question_index.toNat < s1.question_details.length := by omega
          obtain ⟨q1, hq1⟩ : ∃ q,
              s1.question_details.get? question_index.toNat = some q :=
            ⟨_, List.get?_eq_get hlt⟩
          obtain ⟨q2, hq2, hqe⟩ := forall2_get?_some hdetails _ _ hq1
          rw [hq1, hq2]
          obtain ⟨hqid, hqcat, hqtype, hqtext, hqopts, hqdiff, hqstat⟩ := hqe
          simp only [Except.ok.injEq]
          rw [hqid, hqcat, hqtype, hqtext, hqopts, hqdiff, hqstat]
  · have hp2 : (s2.id == session_id) = false := by
      rw [← hid]; simpa using hp
    have hp1 : (s1.id == session_id) = false := by simpa using hp
    simp only [List.find?_cons, List.find?_nil, hp1, hp2]

/-- Witness for C3_get_question_redaction: the two fixture sessions differ
only in which option carries the correct flag, and the question view they
serve is identical. -/
theorem C3_get_question_redaction_witness :
    get_question_by_index [fxActiveSession] "s1" 0 50
      = get_question_by_index [fxActiveSessionFlipped] "s1" 0 50 :=
  C3_get_question_redaction fxActiveSession fxActiveSessionFlipped
    ⟨rfl, rfl, rfl, rfl,
      List.Forall₂.cons ⟨rfl, rfl, rfl, rfl, rfl, rfl, rfl⟩ List.Forall₂.nil,
      rfl, rfl, rfl, rfl, rfl, rfl, rfl, rfl⟩ "s1" 0 50

/-- Claim C3, counterexample: the two fixture sessions differ only in the
snapshot's `is_correct` flags, yet `get_test_session` and a repeated
`start` (which returns the stored active session verbatim) produce
different responses — the frozen snapshot with its answer key is returned
unstripped. -/
theorem C3_counterexample :
    sessionSnapshotEquiv fxActiveSession fxActiveSessionFlipped ∧
    (get_test_session [fxActiveSession] "s1" 0).toOption
      ≠ (get_test_session [fxActiveSessionFlipped] "s1" 0).toOption ∧
    (start_test_session id [] fxConfig [fxActiveSession] "cand1" "n1" 0).2.toOption
      ≠ (start_test_session id [] fxConfig [fxActiveSessionFlipped] "cand1" "n1" 0).2.toOption := by
  refine ⟨⟨rfl, rfl, rfl, rfl,
    List.Forall₂.cons ⟨rfl, rfl, rfl, rfl, rfl, rfl, rfl⟩ List.Forall₂.nil,
    rfl, rfl, rfl, rfl, rfl, rfl, rfl, rfl⟩, by decide, by decide⟩

/-- Claim C2 (amended): once a multi-stage session's status is `failed`,
its `current_stage` stays frozen and `evaluate_stage` for any stage other
than that frozen stage is rejected with the state unchanged; the code
however never checks for the failed status itself, so a repeated
`evaluate_stage` for the frozen failing practical stage is accepted, writes
a new StageResult and can change the status — `failed` is not terminal
(see the counterexample). -/
theorem C2_failed_mismatch_rejected (criteria : List EvaluationCriterion)
    (configs : List MultiStageTestConfiguration) (st : MSState)
    (stage_result : StageEvalInput) (evaluated_by evaluated_by_name result_id : String)
    (now : Int) (session : MultiStageSession)
    (hfind : st.sessions.find? (fun s => s.id == stage_result.session_id) = some session)
    (hfailed : session.status = "failed")
    (hne : stage_result.stage ≠ session.current_stage) :
    (evaluate_stage criteria configs st stage_result evaluated_by evaluated_by_name
      result_id now).1 = st ∧
    ∃ err, (evaluate_stage criteria configs st stage_result evaluated_by
      evaluated_by_name result_id now).2 = .error err := by
  unfold evaluate_stage
  by_cases hs : stage_result.stage ≠ "yard" ∧ stage_result.stage ≠ "road"
  · rw [if_pos hs]
    exact ⟨rfl, _, rfl⟩
  · rw [if_neg hs]
    simp only [hfind]
    rw [if_pos (Ne.symm hne)]
    exact ⟨rfl, _, rfl⟩

/-- Witness for C2_failed_mismatch_rejected: a road-stage request against
the failed yard-frozen fixture session is rejected without change. -/
theorem C2_failed_mismatch_rejected_witness :
    (evaluate_stage [] [] fxMsStateFailed fxRoadEvalRequest "off" "Off" "r9" 0).1
      = fxMsStateFailed ∧
    ∃ err, (evaluate_stage [] [] fxMsStateFailed fxRoadEvalRequest
      "off" "Off" "r9" 0).2 = .error err :=
  C2_failed_mismatch_rejected [] [] fxMsStateFailed fxRoadEvalRequest
    "off" "Off" "r9" 0 fxMsFailedSession rfl rfl (by decide)

/-- Helper: the multi-stage start of the counterexample trace produces the
expected fresh session. -/
theorem c2State1_sessions : c2State1.sessions = [fxC2Start] := rfl

/-- Helper: the spec-modelled written completion of the counterexample
trace passes (the single true/false question is answered correctly) and
moves the session to the yard stage. -/
theorem c2State2_sessions : c2State2.sessions = [fxC2AfterWritten] := by
  show (complete_written_stage_state fxMsConfig c2State1 "ms1" [fxTfQuestion]
      fxWrittenAnswers "ws1").sessions = [fxC2AfterWritten]
  rw [complete_written_stage_state]
  show c2State1.sessions.map _ = _
  rw [c2State1_sessions]
  simp only [List.map_cons, List.map_nil]
  rw [if_pos (show ("ms1" == "ms1") = true from rfl)]
  simp only [complete_written_stage, fxWrittenScore]
  have hpass : (fxMsConfig.written_pass_mark_percentage : ℚ) ≤ 100 := by
    norm_num [fxMsConfig]
  rw [if_pos hpass]
  simp [hpass, fxC2AfterWritten, fxC2Start, emptyStageSlot]

/-- Helper: the failing yard evaluation of the counterexample trace leaves
the session failed and frozen at the yard stage. -/
theorem c2State3_sessions : c2State3.sessions = [fxC2AfterYardFail] := by
  show ((evaluate_stage [fxYardCriterion] [fxMsConfig] c2State2 c2YardFailRequest
      "off" "Officer" "r1" 0).1).sessions = _
  unfold evaluate_stage
  rw [if_neg (by decide)]
  rw [show c2State2.sessions.find? (fun s => s.id == c2YardFailRequest.session_id)
      = some fxC2AfterWritten by rw [c2State2_sessions]; rfl]
  norm_num [c2State2_sessions, c2YardFailRequest, List.find?_cons, evalStep,
    fxYardCriterion, getStageSlot, setStageSlot, stagePassMark, fxMsConfig,
    fxC2AfterYardFail, fxC2AfterWritten, fxC2Start, emptyStageSlot]

/-- Helper: the second yard evaluation of the counterexample trace — made
against the already-failed session — is accepted and revives the session
to status yard_passed at the road stage. -/
theorem c2Step4_eval :
    c2Step4.1.sessions = [fxC2Resurrected] ∧ (∃ doc, c2Step4.2 = .ok doc) := by
  constructor
  · show ((evaluate_stage [fxYardCriterion] [fxMsConfig] c2State3 c2YardPassRequest
        "off" "Officer" "r2" 1).1).sessions = _
    unfold evaluate_stage
    rw [if_neg (by decide)]
    rw [show c2State3.sessions.find? (fun s => s.id == c2YardPassRequest.session_id)
        = some fxC2AfterYardFail by rw [c2State3_sessions]; rfl]
    norm_num [c2State3_sessions, c2YardPassRequest, List.find?_cons, evalStep,
      fxYardCriterion, getStageSlot, setStageSlot, stagePassMark, fxMsConfig,
      fxC2Resurrected, fxC2AfterYardFail, fxC2AfterWritten, fxC2Start,
      emptyStageSlot]
  · show ∃ doc, (evaluate_stage [fxYardCriterion] [fxMsConfig] c2State3
        c2YardPassRequest "off" "Officer" "r2" 1).2 = .ok doc
    unfold evaluate_stage
    rw [show c2State3.sessions.find? (fun s => s.id == c2YardPassRequest.session_id)
        = some fxC2AfterYardFail by rw [c2State3_sessions]; rfl]
    exact ⟨_, rfl⟩

/-- Claim C2, counterexample: a reachable trace — start, written stage
passed (spec-modelled), yard stage failed — leaves the session with
status failed frozen at the yard stage; yet a subsequent `evaluate_stage`
call for that same yard stage is accepted (the code never checks the
failed status), changes the status to yard_passed and moves
`current_stage` to road, so a failed session is not terminal and the
freeze is not permanent. -/
theorem C2_counterexample :
    c2State3.sessions.map (fun s => (s.status, s.current_stage))
      = [("failed", "yard")] ∧
    (∃ doc, c2Step4.2 = .ok doc) ∧
    c2Step4.1.sessions.map (fun s => (s.status, s.current_stage))
      = [("yard_passed", "road")] := by
  refine ⟨by rw [c2State3_sessions]; rfl, c2Step4_eval.2, by rw [c2Step4_eval.1]; rfl⟩

/-- Helper: a summand-wise natural division is bounded by the division of
the sum. -/
theorem sum_div_le_div_sum (l : List Nat) (c : Nat) :
    (l.map (· / c)).sum ≤ l.sum / c := by
  induction l with
  | nil => simp
  | cons a rest ih =>
    simp only [List.map_cons, List.sum_cons]
    exact le_trans (Nat.add_le_add_left ih _) (Nat.add_div_le_add_div _ _ _)

/-- Helper: multiplying each percentage by the total distributes over the
sum. -/
theorem sum_map_snd_mul (l : List (String × Nat)) (t : Nat) :
    (l.map (fun dp => dp.2 * t)).sum = (l.map (·.2)).sum * t := by
  induction l with
  | nil => simp
  | cons a rest ih =>
    simp only [List.map_cons, List.sum_cons, ih, Nat.add_mul]

/-- Helper: a list's length splits into the elements whose id is in a
given id list and those whose id is not. -/
theorem length_split_by_id_mem (P : List Question) (ids : List String) :
    P.length = (P.filter (fun q => ids.contains q.id)).length
      + (P.filter (fun q => !(ids.contains q.id))).length := by
  induction P with
  | nil => rfl
  | cons a rest ih =>
    simp only [List.filter_cons, List.length_cons]
    cases h : ids.contains a.id <;> simp [h] at ih ⊢ <;> omega

/-- Helper: when the difficulty percentages sum to 100, the per-bucket
`needed` counts sum to at most the configured total. -/
theorem sum_needed_le (dist : List (String × Nat)) (total : Nat)
    (hsum : (dist.map (·.2)).sum = 100) :
    (dist.map (fun dp => questionsNeeded dp.2 total)).sum ≤ total := by
  have h1 : (dist.map (fun dp => dp.2 * total / 100)).sum
      ≤ (dist.map (fun dp => dp.2 * total)).sum / 100 := by
    have := sum_div_le_div_sum (dist.map (fun dp => dp.2 * total)) 100
    simpa [List.map_map, Function.comp] using this
  have h2 : (dist.map (fun dp => dp.2 * total)).sum = 100 * total := by
    rw [sum_map_snd_mul dist total, hsum]
  calc (dist.map (fun dp => questionsNeeded dp.2 total)).sum
      ≤ (dist.map (fun dp => dp.2 * total)).sum / 100 := h1
    _ = 100 * total / 100 := by rw [h2]
    _ = total := Nat.mul_div_cancel_left total (by norm_num)

/-- Helper: members of a bucket's contribution are approved questions of
the configured category carrying the bucket's difficulty, drawn from the
question store. -/
theorem bucketQuestions_mem (shuffle : List Question → List Question)
    (hsh : ∀ l, (shuffle l).Perm l) (db : List Question)
    (category_id : String) (total : Nat) (difficulty : String) (pct : Nat)
    (q : Question) (hq : q ∈ bucketQuestions shuffle db category_id total difficulty pct) :
    q ∈ db ∧ q.category_id = category_id ∧ q.status = "approved" ∧
      q.difficulty = difficulty := by
  rw [bucketQuestions] at hq
  split at hq
  · have h1 : q ∈ shuffle ((bucketFilter db category_id difficulty).take
        (questionsNeeded pct total * 2)) := List.mem_of_mem_take hq
    have h2 := ((hsh _).mem_iff).mp h1
    have h3 : q ∈ bucketFilter db category_id difficulty := List.mem_of_mem_take h2
    rw [bucketFilter, List.mem_filter] at h3
    obtain ⟨hdb, hp⟩ := h3
    simp only [Bool.and_eq_true, beq_iff_eq] at hp
    exact ⟨hdb, hp.1.1, hp.2, hp.1.2⟩
  · cases hq

/-- Helper: a bucket's contribution carries no duplicate question ids when
the store has none. -/
theorem bucketQuestions_nodup (shuffle : List Question → List Question)
    (hsh : ∀ l, (shuffle l).Perm l) (db : List Question)
    (hdb : (db.map (·.id)).Nodup) (category_id : String) (total : Nat)
    (difficulty : String) (pct : Nat) :
    ((bucketQuestions shuffle db category_id total difficulty pct).map (·.id)).Nodup := by
  rw [bucketQuestions]
  split
  · have h0 : ((bucketFilter db category_id difficulty).map (·.id)).Nodup :=
      hdb.sublist ((List.filter_sublist db).map _)
    have h1 : (((bucketFilter db category_id difficulty).take
        (questionsNeeded pct total * 2)).map (·.id)).Nodup :=
      h0.sublist ((List.take_sublist _ _).map _)
    have h2 : ((shuffle ((bucketFilter db category_id difficulty).take
        (questionsNeeded pct total * 2))).map (·.id)).Nodup :=
      (((hsh _).map _).nodup_iff).mpr h1
    exact h2.sublist ((List.take_sublist _ _).map _)
  · simp

/-- Helper: questions of a nodup-id store with equal ids are equal. -/
theorem eq_of_mem_of_nodup_ids {db : List Question}
    (hdb : (db.map (·.id)).Nodup) {a b : Question}
    (ha : a ∈ db) (hb : b ∈ db) (hid : a.id = b.id) : a = b :=
  List.inj_on_of_nodup_map hdb ha hb hid

/-- Helper: the pre-backfill concatenation of all bucket contributions —
its length bound, its membership properties, and its id nodup-ness. -/
theorem preBuckets_props (shuffle : List Question → List Question)
    (hsh : ∀ l, (shuffle l).Perm l) (db : List Question)
    (hdb : (db.map (·.id)).Nodup) (category_id : String) (total : Nat)
    (dist : List (String × Nat)) (hkeys : (dist.map (·.1)).Nodup)
    (hsum : (dist.map (·.2)).sum = 100) :
    ((dist.map fun dp =>
        bucketQuestions shuffle db category_id total dp.1 dp.2).flatten.length ≤ total) ∧
    (∀ q ∈ (dist.map fun dp =>
        bucketQuestions shuffle db category_id total dp.1 dp.2).flatten,
      q ∈ db ∧ q.category_id = category_id ∧ q.status = "approved") ∧
    (((dist.map fun dp =>
        bucketQuestions shuffle db category_id total dp.1 dp.2).flatten.map (·.id)).Nodup) := by
  refine ⟨?_, ?_, ?_⟩
  · rw [List.length_flatten]
    have hpt : ∀ b ∈ dist.map (fun dp =>
        bucketQuestions shuffle db category_id total dp.1 dp.2),
        b.length ≤ total → True := fun _ _ _ => trivial
    have h1 : ((dist.map fun dp =>
        bucketQuestions shuffle db category_id total dp.1 dp.2).map List.length).sum
        ≤ (dist.map (fun dp => questionsNeeded dp.2 total)).sum := by
      rw [List.map_map]
      apply List.sum_le_sum
      intro dp _
      simp only [Function.comp]
      rw [bucketQuestions]
      split
      · exact le_trans (List.length_take_le _ _) (le_refl _)
      · simp
    exact le_trans h1 (sum_needed_le dist total hsum)
  · intro q hq
    rw [List.mem_flatten] at hq
    obtain ⟨b, hb, hqb⟩ := hq
    rw [List.mem_map] at hb
    obtain ⟨dp, _, rfl⟩ := hb
    obtain ⟨h1, h2, h3, _⟩ := bucketQuestions_mem shuffle hsh db category_id total
      dp.1 dp.2 q hqb
    exact ⟨h1, h2, h3⟩
  · rw [List.map_flatten]
    rw [List.nodup_flatten]
    constructor
    · intro l hl
      rw [List.map_map, List.mem_map] at hl
      obtain ⟨dp, _, rfl⟩ := hl
      simp only [Function.comp]
      exact bucketQuestions_nodup shuffle hsh db hdb category_id total dp.1 dp.2
    · rw [List.map_map, List.pairwise_map]
      have hkp : dist.Pairwise (fun dp1 dp2 => dp1.1 ≠ dp2.1) := by
        rw [← List.pairwise_map]
        exact hkeys
      apply hkp.imp
      intro dp1 dp2 hne
      intro x hx1 hx2
      simp only [Function.comp, List.mem_map] at hx1 hx2
      obtain ⟨q1, hq1, hq1x⟩ := hx1
      obtain ⟨q2, hq2, hq2x⟩ := hx2
      obtain ⟨hdb1, _, _, hd1⟩ := bucketQuestions_mem shuffle hsh db category_id
        total dp1.1 dp1.2 q1 hq1
      obtain ⟨hdb2, _, _, hd2⟩ := bucketQuestions_mem shuffle hsh db category_id
        total dp2.1 dp2.2 q2 hq2
      have : q1 = q2 :=
        eq_of_mem_of_nodup_ids hdb hdb1 hdb2 (by rw [hq1x, hq2x])
      exact hne (by rw [← hd1, this, hd2])

/-- Helper: among questions with distinct ids, at most `ids.length` many
have their id in `ids`. -/
theorem length_filter_id_mem_le (l : List Question) (ids : List String)
    (hnd : (l.map (·.id)).Nodup) :
    (l.filter (fun q => ids.contains q.id)).length ≤ ids.length := by
  have hnd' : ((l.filter (fun q => ids.contains q.id)).map (·.id)).Nodup :=
    hnd.sublist ((List.filter_sublist l).map _)
  have hsub : ((l.filter (fun q => ids.contains q.id)).map (·.id)) ⊆ ids := by
    intro x hx
    rw [List.mem_map] at hx
    obtain ⟨q, hq, rfl⟩ := hx
    have := List.of_mem_filter hq
    simpa using this
  calc (l.filter (fun q => ids.contains q.id)).length
      = ((l.filter (fun q => ids.contains q.id)).map (·.id)).length :=
        (List.length_map _ _).symm
    _ ≤ ids.length := (List.subperm_of_subset hnd' hsub).length_le

/-- Claim C7: with a permutation-only shuffle, distinct question ids in
the store and distinct difficulty buckets, (1) for a distribution summing
to 100 and a category holding at least `total_questions` approved
questions, the selector returns exactly `total_questions` questions, all
approved and of the category, with no duplicate ids; and (2) whenever the
selector comes up short and no active session exists, `start` fails with
the insufficient-questions error carrying the required and found counts,
leaving the session store unchanged (no session is created). -/
theorem C7_selector_and_start (shuffle : List Question → List Question)
    (hsh : ∀ l, (shuffle l).Perm l) (db : List Question)
    (hdb : (db.map (·.id)).Nodup) (category_id : String)
    (total_questions : Nat) (dist : List (String × Nat))
    (hkeys : (dist.map (·.1)).Nodup) :
    ((dist.map (·.2)).sum = 100 →
      total_questions ≤ (db.filter (fun q =>
        q.category_id == category_id && q.status == "approved")).length →
      (get_randomized_questions shuffle db category_id total_questions dist).length
          = total_questions ∧
      (∀ q ∈ get_randomized_questions shuffle db category_id total_questions dist,
        q.category_id = category_id ∧ q.status = "approved") ∧
      ((get_randomized_questions shuffle db category_id total_questions dist).map
          (·.id)).Nodup) ∧
    (∀ (test_config : TestConfiguration) (sessions : List TestSession)
        (candidate_id new_id : String) (now : Int),
      test_config.category_id = category_id →
      test_config.total_questions = total_questions →
      test_config.difficulty_distribution = dist →
      sessions.find? (fun s => s.candidate_id == candidate_id &&
        s.test_config_id == test_config.id && s.status == "active") = none →
      (get_randomized_questions shuffle db category_id total_questions dist).length
          < total_questions →
      start_test_session shuffle db test_config sessions candidate_id new_id now
        = (sessions, .error (.insufficientQuestions total_questions
            (get_randomized_questions shuffle db category_id total_questions dist).length))) := by
  constructor
  · intro hsum hcount
    obtain ⟨hlen, hmem, hnd⟩ := preBuckets_props shuffle hsh db hdb category_id
      total_questions dist hkeys hsum
    set B := (dist.map fun dp =>
      bucketQuestions shuffle db category_id total_questions dp.1 dp.2).flatten with hB
    rw [get_randomized_questions]
    by_cases hshort : B.length < total_questions
    · rw [if_pos hshort]
      set qids := B.map (·.id) with hqids
      set pool := backfillPool db category_id qids with hpool
      set bf := pool.take (total_questions - B.length) with hbf
      have hpoolP : pool = (db.filter (fun q =>
          q.category_id == category_id && q.status == "approved")).filter
            (fun q => !(qids.contains q.id)) := by
        rw [hpool, backfillPool, List.filter_filter]
        apply List.filter_congr
        intro q _
        cases q.category_id == category_id <;>
          cases q.status == "approved" <;>
            cases qids.contains q.id <;> rfl
      have hPnd : ((db.filter (fun q =>
          q.category_id == category_id && q.status == "approved")).map (·.id)).Nodup :=
        hdb.sublist ((List.filter_sublist db).map _)
      have hsplit : (db.filter (fun q =>
            q.category_id == category_id && q.status == "approved")).length
          ≤ pool.length + qids.length := by
        rw [hpoolP]
        set P := db.filter (fun q =>
          q.category_id == category_id && q.status == "approved") with hP
        have h1 := length_split_by_id_mem P qids
        have h2 := length_filter_id_mem_le P qids hPnd
        omega
      have hqlen : qids.length = B.length := List.length_map _ _
      have hpoollen : total_questions - B.length ≤ pool.length := by omega
      have hbflen : bf.length = total_questions - B.length := by
        rw [hbf, List.length_take]
        omega
      have hlen2 : (B ++ bf).length = total_questions := by
        rw [List.length_append, hbflen]
        omega
      have hbfmem : ∀ q ∈ bf, q ∈ db ∧ q.category_id = category_id ∧
          q.status = "approved" ∧ ¬(q.id ∈ qids) := by
        intro q hq
        have h1 : q ∈ pool := List.mem_of_mem_take hq
        rw [hpool, backfillPool, List.mem_filter] at h1
        obtain ⟨h2, h3⟩ := h1
        simp only [Bool.and_eq_true, beq_iff_eq, Bool.not_eq_true'] at h3
        refine ⟨h2, h3.1.1, h3.1.2, ?_⟩
        have := h3.2
        simpa using this
      have hndapp : ((B ++ bf).map (·.id)).Nodup := by
        rw [List.map_append, List.nodup_append]
        refine ⟨hnd, ?_, ?_⟩
        · have : (pool.map (·.id)).Nodup := by
            rw [hpool, backfillPool]
            exact hdb.sublist ((List.filter_sublist db).map _)
          exact this.sublist ((List.take_sublist _ _).map _)
        · intro x hx1 hx2
          rw [List.mem_map] at hx2
          obtain ⟨q, hq, rfl⟩ := hx2
          exact (hbfmem q hq).2.2.2 hx1
      refine ⟨?_, ?_, ?_⟩
      · rw [(hsh _).length_eq]
        exact hlen2
      · intro q hq
        have h1 := ((hsh _).mem_iff).mp hq
        rw [List.mem_append] at h1
        rcases h1 with h1 | h1
        · exact ⟨(hmem q h1).2.1, (hmem q h1).2.2⟩
        · exact ⟨(hbfmem q h1).2.1, (hbfmem q h1).2.2.1⟩
      · exact (((hsh _).map _).nodup_iff).mpr hndapp
    · rw [if_neg hshort]
      have hBlen : B.length = total_questions := by omega
      refine ⟨?_, ?_, ?_⟩
      · rw [(hsh _).length_eq]
        exact hBlen
      · intro q hq
        have h1 := ((hsh _).mem_iff).mp hq
        exact ⟨(hmem q h1).2.1, (hmem q h1).2.2⟩
      · exact (((hsh _).map _).nodup_iff).mpr hnd
  · intro test_config sessions candidate_id new_id now hcat htot hdist hfind hshort
    rw [start_test_session, hfind]
    rw [hcat, htot, hdist]
    rw [if_pos hshort]

/-- Witness for C7_selector_and_start: over the two-question fixture pool,
a total of 2 with a 50/50 split selects both questions; a total of 5 makes
`start` fail with the insufficient-questions error reporting 5 required
against the 2 found, creating no session. -/
theorem C7_witness :
    ((get_randomized_questions id fxDb "cat1" 2 fxDist).length = 2 ∧
     (∀ q ∈ get_randomized_questions id fxDb "cat1" 2 fxDist,
        q.category_id = "cat1" ∧ q.status = "approved") ∧
     ((get_randomized_questions id fxDb "cat1" 2 fxDist).map (·.id)).Nodup) ∧
    start_test_session id fxDb fxConfigTooBig [] "cand1" "n1" 0
      = ([], .error (.insufficientQuestions 5
          (get_randomized_questions id fxDb "cat1" 5 fxDist).length)) :=
  ⟨(C7_selector_and_start id (fun l => List.Perm.refl l) fxDb (by decide) "cat1" 2
      fxDist (by decide)).1 (by decide) (by decide),
   (C7_selector_and_start id (fun l => List.Perm.refl l) fxDb (by decide) "cat1" 5
      fxDist (by decide)).2 fxConfigTooBig [] "cand1" "n1" 0 rfl rfl rfl rfl
      (by decide)⟩

end DriverTesting
